import Mathlib

/-!
Shallow embedding of the CGD mapping engine (mckb/sources/CGD.py):
identifier generation, the gene-symbol map, missense classification, the
amino-acid variant matcher, the genotype/protein-variant mapper, the cDNA
mapper, and the disease-drug-genotype mapper.  Graph output is modelled as a
list of emission records, one per graph-mutating call in the source.
-/

namespace CGD

/-! ## Character classes of the regular expressions used by the source -/

/-- The `[A-Za-z]` character class of the amino-acid regex. -/
def isAlphaCh (c : Char) : Bool :=
  (65 ≤ c.toNat && c.toNat ≤ 90) || (97 ≤ c.toNat && c.toNat ≤ 122)

/-- The `\d` character class of the amino-acid regex (ASCII digits). -/
def isDigitCh (c : Char) : Bool :=
  48 ≤ c.toNat && c.toNat ≤ 57

/-- Whitespace as stripped by Python `str.rstrip()`. -/
def isSpaceCh (c : Char) : Bool :=
  c == ' ' || c == '\t' || c == '\n' || c == '\x0d' || c == '\x0b' || c == '\x0c'

/-- Python `str.rstrip()`: drop trailing whitespace characters. -/
def rstrip (cs : List Char) : List Char :=
  (cs.reverse.dropWhile isSpaceCh).reverse

/-- Strip on both sides (used only to state the spec's reading of parsing). -/
def stripBoth (cs : List Char) : List Char :=
  (cs.dropWhile isSpaceCh).reverse.dropWhile isSpaceCh |>.reverse

/-- Numeric value of a digit string, as `int()` would read it. -/
def natOfDigits (cs : List Char) : Nat :=
  cs.foldl (fun n c => n * 10 + (c.toNat - 48)) 0

/-! ## Substring search (`re.search` with a literal pattern) -/

/-- Does `ps` match at the very start of `hs`? -/
def prefixMatch : List Char → List Char → Bool
  | [], _ => true
  | _ :: _, [] => false
  | p :: ps, h :: hs => (p == h) && prefixMatch ps hs

/-- Model of `re.search` with a literal (metacharacter-free) pattern: does
`pat` occur as a contiguous substring of the haystack? -/
def substrSearch (pat : List Char) : List Char → Bool
  | [] => prefixMatch pat []
  | h :: hs => prefixMatch pat (h :: hs) || substrSearch pat hs

/-! ## Identifier generation -/

/-- Modelled from the spec: the Identifier Generator (`make_id`, inherited
from the source base class and absent from `src/`) is a pure, deterministic
function from a tagged natural-key string to a stable identifier string;
distinct keys are assumed to give distinct identifiers. -/
def make_id (key : String) : String :=
  ":" ++ key

/-! ## The Python dict used as the gene map

A dict is modelled, for lookup purposes, as its insertion sequence; lookup
finds the value of the LAST insertion of the key, which is exactly
overwrite-on-insert semantics. -/

/-- Dict assignment `d[k] = v`: record the insertion. -/
def pyDictSet (m : List (String × String)) (k v : String) :
    List (String × String) :=
  m ++ [(k, v)]

/-- Dict lookup `d[k]` as an `Option`: the most recent insertion of `k`
wins; `none` models the `KeyError` raised on a missing key. -/
def pyDictGet (m : List (String × String)) (k : String) : Option String :=
  match m with
  | [] => none
  | p :: rest =>
    match pyDictGet rest k with
    | some v => some v
    | none => if p.1 == k then some p.2 else none

/-! ## Rows -/

/-- One row of the gene mapping reference file (tab-separated, at least
three fields; the code reads only indices 1 and 2). -/
structure GeneRow where
  col0 : String
  col1 : String
  col2 : String

/-- The 11 protein-variant fields shared by row shapes A and B
(`row[0:11]` in `add_genotype_info_to_graph`). -/
structure ProteinRow where
  genotype_key : Nat
  genotype_label : String
  amino_acid_variant : String
  amino_acid_position : Option Nat
  transcript_id : String
  transcript_priority : Option String
  protein_variant_type : Option String
  functional_impact : Option String
  stop_gain_loss : Option String
  transcript_gene : String
  protein_variant_source : Option String

/-- The 16 extra cDNA fields of row shape B (indices 11..26). -/
structure CdnaExt where
  variant_gene : Option String
  bp_pos : Option String
  genotype_cdna : Option String
  cosmic_id : Option String
  db_snp_id : Option String
  genome_pos_start : Option String
  genome_pos_end : Option String
  ref_base : Option String
  variant_base : Option String
  primary_transcript_exons : Option String
  primary_transcript_variant_sub_types : Option String
  variant_type : Option String
  chromosome : Option String
  genome_build : Option String
  build_version : Option String
  build_date : Option String

/-- A row consumed by the genotype mapper: shape A is the 11 protein
fields (`ext = none`), shape B additionally carries the cDNA fields
(`ext = some _`, i.e. `len(row) > 11`). -/
structure GenoRow where
  protein : ProteinRow
  ext : Option CdnaExt

/-- A disease-drug-genotype row (shape C). -/
structure DDGRow where
  genotype_key : Nat
  genotype_label : String
  diagnoses_key : Nat
  diagnoses : String
  specific_diagnosis : Option String
  organ : Option String
  relationship : String
  drug_key : Nat
  drug : String
  therapy_status : Option String
  pubmed_id : Option Nat

/-! ## Graph emissions

One constructor per graph-mutating call made by the mapper; token-valued
arguments of external vocabularies (`geno.genoparts`, `geno.properties`,
`Feature.properties`, `Feature.types`) are carried as their key strings. -/

inductive Emission where
  | addGenotype (genotypeId label gtype : String)
  | addTranscript (genotypeId transcriptCurie transcriptId ttype : String)
  | addClass (id label : String)
  | addIndividual (id label itype : String)
  | loadObjectProperty (rel relId : String)
  | addAlleleOfGene (genotypeId geneId : String)
  | addTriple (subj pred obj : String)
  | feature (id label ftype startPos startAnchor endPos endAnchor : String)
  | association (annotId subj obj rel source evidence : String)
  deriving DecidableEq

/-! ## Gene symbol resolver (`set_gene_map`) -/

/-- Model of `set_gene_map`: `none` models a missing reference file (the
`os.path.exists` guard fails and the empty dict is returned); otherwise each
row's column 1 is mapped to its column 2, by dict insertion in file order. -/
def set_gene_map (mapping_file : Option (List GeneRow)) :
    List (String × String) :=
  match mapping_file with
  | none => []
  | some rows => rows.foldl (fun m r => pyDictSet m r.col1 r.col2) []

/-! ## Missense classification and amino-acid parsing -/

/-- The missense test of `_add_genotype_protein_variant_assoc_to_graph`:
`protein_variant_type == 'nonsynonymous - missense' or
re.search(r'missense', genotype_label)`. -/
def isMissense (protein_variant_type : Option String)
    (genotype_label : String) : Bool :=
  protein_variant_type == some "nonsynonymous - missense"
    || substrSearch "missense".data genotype_label.data

/-- Model of the variant matcher
`re.match(r'^p\.([A-Za-z]{1,3})(\d+)([A-Za-z]{1,3})$', s.rstrip())`,
returning the three groups.  Because the alphabetic and digit classes are
disjoint, the regex (with backtracking) matches exactly when the leading
alphabetic run after the mandatory `p.` has length 1-3, is followed by a
nonempty digit run, and the remainder is an alphabetic run of length 1-3;
the groups are those three runs. -/
def parseAminoAcid (s : String) : Option (String × String × String) :=
  match rstrip s.data with
  | 'p' :: '.' :: rest =>
    let a := rest.takeWhile isAlphaCh
    let rest1 := rest.dropWhile isAlphaCh
    let d := rest1.takeWhile isDigitCh
    let b := rest1.dropWhile isDigitCh
    if 1 ≤ a.length && a.length ≤ 3 && 1 ≤ d.length
        && 1 ≤ b.length && b.length ≤ 3 && b.all isAlphaCh then
      some (String.mk a, String.mk d, String.mk b)
    else
      none
  | _ => none

/-! ## Genotype-variant mapper -/

/-- Model of `_add_genotype_protein_variant_assoc_to_graph`: emissions made for the
11 protein fields, paired with `some transcript_gene` when the row aborts
with a `KeyError` on `self.gene_map[transcript_gene]` (the emissions made
before the failing lookup are kept, as the graph has already been written). -/
def _add_genotype_protein_variant_assoc_to_graph
    (gene_map : List (String × String)) (row : ProteinRow) :
    List Emission × Option String :=
  let genotype_id := make_id ("cgd-genotype" ++ toString row.genotype_key)
  let transcript_curie := make_id ("cgd-transcript" ++ row.transcript_id)
  let e1 := [Emission.addGenotype genotype_id row.genotype_label
    "sequence_alteration"]
  let e2 :=
    if row.transcript_priority == some "Primary" then
      [Emission.addTranscript genotype_id transcript_curie row.transcript_id
        "primary_transcript"]
    else if row.transcript_priority == some "Secondary" then
      [Emission.addTranscript genotype_id transcript_curie row.transcript_id
        "transcript_secondary_structure_variant"]
    else []
  let isM := isMissense row.protein_variant_type row.genotype_label
  let e3 :=
    if isM then
      [Emission.addGenotype genotype_id row.genotype_label "missense_variant"]
    else []
  match pyDictGet gene_map row.transcript_gene with
  | none => (e1 ++ e2 ++ e3, some row.transcript_gene)
  | some gene_id =>
    let e4 := [Emission.addClass gene_id row.transcript_gene,
               Emission.addAlleleOfGene genotype_id gene_id]
    let aa_position_id := make_id
      ("cgd-aa-pos" ++ toString row.genotype_key ++ row.amino_acid_variant)
    let mtch :=
      if isM then parseAminoAcid row.amino_acid_variant else none
    let e5 :=
      match mtch with
      | some (_a, position, _b) =>
        [Emission.addTriple genotype_id "location" aa_position_id,
         Emission.feature aa_position_id row.amino_acid_variant "Position"
           position transcript_curie position transcript_curie]
      | none => []
    (e1 ++ e2 ++ e3 ++ e4 ++ e5, none)

/-- Model of `_add_genotype_cdna_variant_assoc_to_graph`: unpacks the 27 fields,
recomputes the genotype identifier, and returns without touching the
graph. -/
def _add_genotype_cdna_variant_assoc_to_graph (row : ProteinRow)
    (ext : CdnaExt) : List Emission :=
  let genotype_id := make_id ("cgd-genotype" ++ toString row.genotype_key)
  let _ := genotype_id
  let _ := ext
  []

/-- One iteration of the loop in `add_genotype_info_to_graph`: the protein
handler runs on the first 11 fields; when the row has more than 11 fields
(`ext = some _`) the cDNA handler additionally runs on it. -/
def processGenoRow (gene_map : List (String × String)) (row : GenoRow) :
    List Emission × Option String :=
  let r := _add_genotype_protein_variant_assoc_to_graph gene_map row.protein
  match r.2 with
  | some g => (r.1, some g)
  | none =>
    match row.ext with
    | some ext =>
      (r.1 ++ _add_genotype_cdna_variant_assoc_to_graph row.protein ext, none)
    | none => (r.1, none)

/-- Model of `add_genotype_info_to_graph`: process rows in order; an uncaught
`KeyError` aborts the loop, keeping everything emitted so far. -/
def add_genotype_info_to_graph (gene_map : List (String × String)) :
    List GenoRow → List Emission × Option String
  | [] => ([], none)
  | row :: rest =>
    let r := processGenoRow gene_map row
    match r.2 with
    | some g => (r.1, some g)
    | none =>
      let r2 := add_genotype_info_to_graph gene_map rest
      (r.1 ++ r2.1, r2.2)

/-! ## Disease-drug-genotype mapper -/

/-- The relationship token
`("MONARCH:{0}".format(relationship)).replace(" ", "_")`: namespace the
relationship text and replace every space character with an underscore. -/
def relationshipToken (relationship : String) : String :=
  String.mk (("MONARCH:" ++ relationship).data.map
    (fun c => if c == ' ' then '_' else c))

/-- One iteration of the loop in `add_disease_drug_genotype_to_graph`. -/
def ddgRowEmissions (row : DDGRow) : List Emission :=
  let population_id := make_id
    ("cgd" ++ toString row.genotype_key ++ row.genotype_label)
  let population_label :=
    "Patient population diagnosed with " ++ row.diagnoses
      ++ " with genotype " ++ row.genotype_label
  let genotype_id := make_id ("cgd-genotype" ++ toString row.genotype_key)
  let phenotype_id := make_id ("cgd-phenotype" ++ toString row.diagnoses_key)
  let relationship_id := relationshipToken row.relationship
  let drug_id := make_id ("cgd-drug" ++ toString row.drug_key)
  [Emission.addIndividual population_id population_label "population",
   Emission.addClass phenotype_id row.diagnoses,
   Emission.addClass drug_id row.drug,
   Emission.loadObjectProperty row.relationship relationship_id,
   Emission.addTriple population_id "has_genotype" genotype_id,
   Emission.addTriple population_id "has_phenotype" phenotype_id,
   Emission.addTriple population_id relationship_id drug_id]
  ++ match row.pubmed_id with
     | none => []
     | some pmid =>
       let source_id := "PMID:" ++ toString pmid
       let evidence := "ECO:0000033"
       let genotype_annot := make_id (population_id ++ row.genotype_label)
       let phenotype_annot := make_id (population_id ++ row.diagnoses)
       let drug_annot := make_id (population_id ++ row.drug)
       [Emission.association genotype_annot population_id genotype_id
          "has_genotype" source_id evidence,
        Emission.association phenotype_annot population_id phenotype_id
          "has_phenotype" source_id evidence,
        Emission.association drug_annot population_id drug_id
          relationship_id source_id evidence]

/-- Model of `add_disease_drug_genotype_to_graph` over a whole table. -/
def add_disease_drug_genotype_to_graph (table : List DDGRow) : List Emission :=
  table.flatMap ddgRowEmissions

/-! ## Emission classifiers -/

/-- Is an emission a provenance-backed Association record? -/
def isAssociationEm : Emission → Bool
  | Emission.association _ _ _ _ _ _ => true
  | _ => false

/-- Is an emission a bare triple (edge)? -/
def isTripleEm : Emission → Bool
  | Emission.addTriple _ _ _ => true
  | _ => false

/-- Is an emission a transcript addition? -/
def isTranscriptEm : Emission → Bool
  | Emission.addTranscript _ _ _ _ => true
  | _ => false

/-- Is an emission part of the position-feature output (the location triple
or the feature record)? -/
def isFeatureEm : Emission → Bool
  | Emission.feature _ _ _ _ _ _ _ => true
  | Emission.addTriple _ _ _ => true
  | _ => false

/-! ## Spec-side readings (used only to compare claims with the code) -/

/-- The claim's reading of the relationship token: every whitespace
character replaced by an underscore, namespaced. -/
def specRelationshipToken (relationship : String) : String :=
  String.mk (("MONARCH:" ++ relationship).data.map
    (fun c => if isSpaceCh c then '_' else c))

/-- Does a character list consist of 1-3 alphabetic characters, then one or
more digits, then 1-3 alphabetic characters? -/
def ldlMatch (cs : List Char) : Bool :=
  let a := cs.takeWhile isAlphaCh
  let r1 := cs.dropWhile isAlphaCh
  let d := r1.takeWhile isDigitCh
  let b := r1.dropWhile isDigitCh
  1 ≤ a.length && a.length ≤ 3 && 1 ≤ d.length
    && 1 ≤ b.length && b.length ≤ 3 && b.all isAlphaCh

/-- The claim's reading of the variant matcher: leading and trailing
whitespace stripped, the two-character marker `p.` optional. -/
def specVariantMatches (s : String) : Bool :=
  let cs := stripBoth s.data
  (match cs with
   | 'p' :: '.' :: rest => ldlMatch rest
   | _ => false) || ldlMatch cs

end CGD

namespace CGD

/-! ## Helper lemmas -/

/-- Correctness of the literal prefix matcher. -/
theorem pm_iff : ∀ ps hs : List Char, prefixMatch ps hs = true ↔ ps <+: hs := by
  intro ps
  induction ps with
  | nil => intro hs; simp [prefixMatch]
  | cons p pt ih =>
    intro hs
    cases hs with
    | nil => simp [prefixMatch]
    | cons h ht => simp [prefixMatch, ih, List.cons_prefix_cons]

/-- Correctness of the literal substring search: it succeeds exactly on
contiguous substrings. -/
theorem ss_iff : ∀ pat hay : List Char,
    substrSearch pat hay = true ↔ pat <:+: hay := by
  intro pat hay
  induction hay with
  | nil => simp [substrSearch, pm_iff]
  | cons h ht ih => simp [substrSearch, pm_iff, ih, List.infix_cons_iff]

/-- The digit class and the alphabetic class are disjoint. -/
theorem digit_not_alpha : ∀ c : Char, isDigitCh c = true → isAlphaCh c = false := by
  intro c h
  simp [isDigitCh, isAlphaCh, decide_eq_true_eq] at *
  omega

/-- The alphabetic class and the digit class are disjoint. -/
theorem alpha_not_digit : ∀ c : Char, isAlphaCh c = true → isDigitCh c = false := by
  intro c h
  simp [isDigitCh, isAlphaCh, decide_eq_true_eq] at *
  omega

/-- A run satisfying the predicate passes through `takeWhile`. -/
theorem takeWhile_app_all {α : Type} (p : α → Bool) : ∀ (xs ys : List α),
    xs.all p = true → List.takeWhile p (xs ++ ys) = xs ++ List.takeWhile p ys := by
  intro xs ys h
  induction xs with
  | nil => simp
  | cons a t ih => simp_all [List.takeWhile]

/-- A run satisfying the predicate is consumed by `dropWhile`. -/
theorem dropWhile_app_all {α : Type} (p : α → Bool) : ∀ (xs ys : List α),
    xs.all p = true → List.dropWhile p (xs ++ ys) = List.dropWhile p ys := by
  intro xs ys h
  induction xs with
  | nil => simp
  | cons a t ih => simp_all [List.dropWhile]

/-- Everything kept by `takeWhile` satisfies the predicate. -/
theorem all_takeWhile {α : Type} (p : α → Bool) : ∀ (l : List α),
    (l.takeWhile p).all p = true := by
  intro l
  induction l with
  | nil => simp
  | cons a t ih =>
    cases h : p a <;> simp [List.takeWhile, h, ih]

/-- Structural characterisation of a successful amino-acid parse: the
rstripped input is the mandatory marker `p.` followed by a 1-3 letter run,
a nonempty digit run, and a 1-3 letter run. -/
theorem parse_isSome_iff : ∀ s : String,
    (parseAminoAcid s).isSome = true ↔
      ∃ a d b : List Char,
        rstrip s.data = 'p' :: '.' :: (a ++ d ++ b) ∧
        1 ≤ a.length ∧ a.length ≤ 3 ∧ a.all isAlphaCh = true ∧
        1 ≤ d.length ∧ d.all isDigitCh = true ∧
        1 ≤ b.length ∧ b.length ≤ 3 ∧ b.all isAlphaCh = true := by
  intro s
  unfold parseAminoAcid
  split
  next rest h =>
    constructor
    · intro hs
      dsimp only at hs
      split at hs
      next hg =>
        simp only [Bool.and_eq_true, decide_eq_true_eq] at hg
        obtain ⟨⟨⟨⟨⟨ha1, ha3⟩, hd1⟩, hb1⟩, hb3⟩, hball⟩ := hg
        refine ⟨rest.takeWhile isAlphaCh,
                (rest.dropWhile isAlphaCh).takeWhile isDigitCh,
                (rest.dropWhile isAlphaCh).dropWhile isDigitCh,
                ?_, ha1, ha3, all_takeWhile _ _, hd1, all_takeWhile _ _,
                hb1, hb3, hball⟩
        rw [h]
        simp [List.takeWhile_append_dropWhile]
      next => simp at hs
    · rintro ⟨a, d, b, hsplit, ha1, ha3, haall, hd1, hdall, hb1, hb3, hball⟩
      rw [h] at hsplit
      have hrest : rest = a ++ (d ++ b) := by
        have h2 := hsplit
        simp only [List.cons.injEq] at h2
        rw [h2.2.2, List.append_assoc]
      cases d with
      | nil => simp at hd1
      | cons d0 dt =>
        cases b with
        | nil => simp at hb1
        | cons b0 bt =>
          have hd0 : isAlphaCh d0 = false := by
            apply digit_not_alpha
            simp [List.all_cons] at hdall
            exact hdall.1
          have hb0 : isDigitCh b0 = false := by
            apply alpha_not_digit
            simp [List.all_cons] at hball
            exact hball.1
          have htw : rest.takeWhile isAlphaCh = a := by
            rw [hrest, takeWhile_app_all isAlphaCh a _ haall]
            simp [List.takeWhile, hd0]
          have hdw : rest.dropWhile isAlphaCh = (d0 :: dt) ++ (b0 :: bt) := by
            rw [hrest, dropWhile_app_all isAlphaCh a _ haall]
            simp [List.dropWhile, hd0]
          have htw2 : ((d0 :: dt) ++ (b0 :: bt)).takeWhile isDigitCh = d0 :: dt := by
            rw [takeWhile_app_all isDigitCh _ _ hdall]
            simp [List.takeWhile, hb0]
          have hdw2 : ((d0 :: dt) ++ (b0 :: bt)).dropWhile isDigitCh = b0 :: bt := by
            rw [dropWhile_app_all isDigitCh _ _ hdall]
            simp [List.dropWhile, hb0]
          simp only [htw, hdw, htw2, hdw2]
          simp only [List.length_cons] at hb3
          simp [ha1, ha3, hd1, hb1, hball]
          omega
  next h =>
    simp only [Option.isSome_none, Bool.false_eq_true, false_iff]
    rintro ⟨a, d, b, hsplit, _⟩
    exact absurd hsplit (fun hh => h (a ++ d ++ b) hh)

/-- A fold of dict insertions is the append of the inserted pairs. -/
theorem pyDictSet_foldl : ∀ (rows : List GeneRow) (m : List (String × String)),
    rows.foldl (fun m r => pyDictSet m r.col1 r.col2) m
      = m ++ rows.map (fun r => (r.col1, r.col2)) := by
  intro rows
  induction rows with
  | nil => intro m; simp
  | cons r t ih => intro m; rw [List.foldl_cons, ih]; simp [pyDictSet]

/-- A search over an append looks left first. -/
theorem find_of_append {α : Type} (p : α → Bool) : ∀ (l₁ l₂ : List α),
    (l₁ ++ l₂).find? p = ((l₁.find? p).orElse (fun _ => l₂.find? p)) := by
  intro l₁ l₂
  induction l₁ with
  | nil => simp [Option.orElse]
  | cons a t ih =>
    by_cases h : p a = true <;> simp [List.find?, h, ih, Option.orElse]

/-- Dict lookup over an insertion sequence finds the last insertion of the
key, i.e. the value of the last matching row in file order. -/
theorem pyDictGet_last : ∀ (rows : List GeneRow) (k : String),
    pyDictGet (rows.map (fun r => (r.col1, r.col2))) k
      = ((rows.reverse.find? (fun r => r.col1 == k)).map GeneRow.col2) := by
  intro rows k
  induction rows with
  | nil => simp [pyDictGet]
  | cons r t ih =>
    simp only [List.map_cons, List.reverse_cons, find_of_append, pyDictGet, ih]
    cases hf : t.reverse.find? (fun r => r.col1 == k) with
    | some x => simp [Option.orElse]
    | none =>
      cases hk : (r.col1 == k) <;>
        simp [Option.orElse, List.find?, hk]

/-- Per-row processing of the genotype mapper is exactly the protein-variant
handler on the first 11 fields: the cDNA handler contributes nothing. -/
theorem processGenoRow_eq : ∀ (gm : List (String × String)) (row : GenoRow),
    processGenoRow gm row
      = _add_genotype_protein_variant_assoc_to_graph gm row.protein := by
  intro gm row
  unfold processGenoRow
  cases hr : (_add_genotype_protein_variant_assoc_to_graph gm row.protein).2 <;>
    cases hx : row.ext <;>
      simp_all [_add_genotype_cdna_variant_assoc_to_graph] <;>
        rw [← hr]

/-- The genotype identifiers emitted by the protein handler: one for the
sequence-alteration record and one more for the missense tag when present,
always the same identifier. -/
theorem handler_gfm : ∀ (gm : List (String × String)) (row : ProteinRow),
    ((_add_genotype_protein_variant_assoc_to_graph gm row).1).filterMap
      (fun e => match e with
        | Emission.addGenotype gid _ _ => some gid
        | _ => none) =
      make_id ("cgd-genotype" ++ toString row.genotype_key) ::
        (if isMissense row.protein_variant_type row.genotype_label then
          [make_id ("cgd-genotype" ++ toString row.genotype_key)] else []) := by
  intro gm row
  unfold _add_genotype_protein_variant_assoc_to_graph
  cases hg : pyDictGet gm row.transcript_gene <;>
    cases hM : isMissense row.protein_variant_type row.genotype_label <;>
      cases hp : parseAminoAcid row.amino_acid_variant <;>
        simp [hM, hp] <;> (repeat' split) <;> simp_all

/-- The transcript identifiers emitted by the protein handler: at most the
one transcript curie, present only for Primary or Secondary priority. -/
theorem handler_tfm : ∀ (gm : List (String × String)) (row : ProteinRow),
    ((_add_genotype_protein_variant_assoc_to_graph gm row).1).filterMap
      (fun e => match e with
        | Emission.addTranscript _ tc _ _ => some tc
        | _ => none) =
      (if row.transcript_priority == some "Primary" then
        [make_id ("cgd-transcript" ++ row.transcript_id)]
      else if row.transcript_priority == some "Secondary" then
        [make_id ("cgd-transcript" ++ row.transcript_id)]
      else []) := by
  intro gm row
  unfold _add_genotype_protein_variant_assoc_to_graph
  cases hg : pyDictGet gm row.transcript_gene <;>
    cases hM : isMissense row.protein_variant_type row.genotype_label <;>
      cases hp : parseAminoAcid row.amino_acid_variant <;>
        simp [hM, hp] <;> (repeat' split) <;> simp_all

/-- The protein handler emits at most one position feature. -/
theorem handler_ffm_len : ∀ (gm : List (String × String)) (row : ProteinRow),
    (((_add_genotype_protein_variant_assoc_to_graph gm row).1).filterMap
      (fun e => match e with
        | Emission.feature fid _ _ _ _ _ _ => some fid
        | _ => none)).length ≤ 1 := by
  intro gm row
  unfold _add_genotype_protein_variant_assoc_to_graph
  cases hg : pyDictGet gm row.transcript_gene <;>
    cases hM : isMissense row.protein_variant_type row.genotype_label <;>
      cases hp : parseAminoAcid row.amino_acid_variant <;>
        simp [hM, hp] <;> (repeat' split) <;> simp_all

end CGD

namespace CGD

/-! ## Claim theorems -/

/-- Claim C1: for every disease-drug-genotype (shape C) row, Associations
are gated solely by citation presence: with no citation id, zero
Associations are produced; with a citation id, exactly three are produced -
one per target (Genotype, Phenotype, Drug) - each keyed from
(Population id, target label), each referencing the same citation id and
the fixed evidence code ECO:0000033, with relations has_genotype,
has_phenotype, and the relationship token respectively; all three together
or not at all. -/
theorem claim_C1 : ∀ row : DDGRow,
    (ddgRowEmissions row).filter isAssociationEm =
      match row.pubmed_id with
      | none => []
      | some pmid =>
        let population_id := make_id
          ("cgd" ++ toString row.genotype_key ++ row.genotype_label)
        let source_id := "PMID:" ++ toString pmid
        [Emission.association (make_id (population_id ++ row.genotype_label))
           population_id (make_id ("cgd-genotype" ++ toString row.genotype_key))
           "has_genotype" source_id "ECO:0000033",
         Emission.association (make_id (population_id ++ row.diagnoses))
           population_id (make_id ("cgd-phenotype" ++ toString row.diagnoses_key))
           "has_phenotype" source_id "ECO:0000033",
         Emission.association (make_id (population_id ++ row.drug))
           population_id (make_id ("cgd-drug" ++ toString row.drug_key))
           (relationshipToken row.relationship) source_id "ECO:0000033"] := by
  intro row
  cases h : row.pubmed_id with
  | none => simp [ddgRowEmissions, h, isAssociationEm]
  | some pmid => simp [ddgRowEmissions, h, isAssociationEm]

/-- Claim C2: a shape-A/B row gets the missense tag on its Genotype exactly
when the protein-variant-type field equals "nonsynonymous - missense" or the
genotype label contains the substring "missense" (case-sensitive). -/
theorem claim_C2 : ∀ (gm : List (String × String)) (row : ProteinRow),
    (Emission.addGenotype (make_id ("cgd-genotype" ++ toString row.genotype_key))
        row.genotype_label "missense_variant"
      ∈ (_add_genotype_protein_variant_assoc_to_graph gm row).1)
    ↔ (row.protein_variant_type = some "nonsynonymous - missense"
       ∨ "missense".data <:+: row.genotype_label.data) := by
  intro gm row
  rw [show (row.protein_variant_type = some "nonsynonymous - missense"
       ∨ "missense".data <:+: row.genotype_label.data) ↔
      isMissense row.protein_variant_type row.genotype_label = true by
    simp [isMissense, ss_iff]]
  unfold _add_genotype_protein_variant_assoc_to_graph
  cases hg : pyDictGet gm row.transcript_gene <;>
    cases hM : isMissense row.protein_variant_type row.genotype_label <;>
      simp [hM] <;> split <;> simp_all

end CGD

namespace CGD

/-- A missense-classified row whose variant string matches the claimed
pattern without the `p.` marker; used to refute claim C3 as stated. -/
def c3crow : ProteinRow :=
  ⟨7, "BRAF missense mutation", "V600E", none, "NM_004333.4", some "Primary",
   some "nonsynonymous - missense", none, none, "BRAF", none⟩

/-- Claim C3 counterexample: the claim says parsing succeeds exactly when
the (whitespace-stripped) string matches the pattern with the marker
OPTIONAL.  On the missense row with variant string "V600E" the claimed
pattern matches, yet the code's matcher (whose regex makes the marker
mandatory) fails and no Position Feature is emitted. -/
theorem claim_C3_counterexample :
    isMissense c3crow.protein_variant_type c3crow.genotype_label = true ∧
    specVariantMatches c3crow.amino_acid_variant = true ∧
    parseAminoAcid c3crow.amino_acid_variant = none ∧
    (_add_genotype_protein_variant_assoc_to_graph [("BRAF", "NCBIGene:673")]
      c3crow).1.filter isFeatureEm = [] := by
  refine ⟨rfl, rfl, rfl, ?_⟩
  decide

/-- Claim C3 amended: only missense rows are parsed; for them parsing
succeeds exactly when the variant string - with TRAILING whitespace
stripped and MANDATORILY prefixed by the marker `p.` - is 1-3 letters,
then digits, then 1-3 letters; "p.V600E" parses to ("V", 600, "E"),
"p.Alpha12Beta" does not parse; a non-match is non-fatal: the row completes
without a Position Feature. -/
theorem claim_C3_amended : ∀ (gm : List (String × String)) (row : ProteinRow)
    (gene_id : String) (s : String),
    ((parseAminoAcid s).isSome = true ↔
      ∃ a d b : List Char,
        rstrip s.data = 'p' :: '.' :: (a ++ d ++ b) ∧
        1 ≤ a.length ∧ a.length ≤ 3 ∧ a.all isAlphaCh = true ∧
        1 ≤ d.length ∧ d.all isDigitCh = true ∧
        1 ≤ b.length ∧ b.length ≤ 3 ∧ b.all isAlphaCh = true) ∧
    parseAminoAcid "p.V600E" = some ("V", "600", "E") ∧
    natOfDigits "600".data = 600 ∧
    parseAminoAcid "p.Alpha12Beta" = none ∧
    (isMissense row.protein_variant_type row.genotype_label = false →
      (_add_genotype_protein_variant_assoc_to_graph gm row).1.filter
        isFeatureEm = []) ∧
    (pyDictGet gm row.transcript_gene = some gene_id →
      (_add_genotype_protein_variant_assoc_to_graph gm row).2 = none) := by
  intro gm row gene_id s
  refine ⟨parse_isSome_iff s, rfl, rfl, rfl, ?_, ?_⟩
  · intro hM
    unfold _add_genotype_protein_variant_assoc_to_graph
    cases hg : pyDictGet gm row.transcript_gene <;>
      simp [hM, isFeatureEm] <;> (repeat' split) <;> simp_all [isFeatureEm]
  · intro hg
    simp [_add_genotype_protein_variant_assoc_to_graph, hg]

/-- A non-missense row whose variant string would match the pattern. -/
def c3wrow : ProteinRow :=
  ⟨9, "KRAS G12D mutation", "p.G12D", none, "NM_033360", some "Secondary",
   some "frameshift", none, none, "KRAS", none⟩

/-- Claim C3 witness: a concrete non-missense row with a matching variant
string yields no Position Feature and completes without error. -/
theorem claim_C3_witness :
    (_add_genotype_protein_variant_assoc_to_graph [("KRAS", "NCBIGene:3845")]
      c3wrow).1.filter isFeatureEm = [] ∧
    (_add_genotype_protein_variant_assoc_to_graph [("KRAS", "NCBIGene:3845")]
      c3wrow).2 = none :=
  ⟨(claim_C3_amended [("KRAS", "NCBIGene:3845")] c3wrow "NCBIGene:3845"
      "p.G12D").2.2.2.2.1 rfl,
   (claim_C3_amended [("KRAS", "NCBIGene:3845")] c3wrow "NCBIGene:3845"
      "p.G12D").2.2.2.2.2 rfl⟩

end CGD

namespace CGD

/-- Claim C4: the gene symbol resolver returns an empty mapping when the
reference file is missing; when present, each row's column 1 maps to its
column 2 with the last row in file order winning on duplicates; any lookup
of an absent label (in particular against the empty mapping) is a hard
failure - the handler aborts with the missing key, never a default. -/
theorem claim_C4 :
    set_gene_map none = [] ∧
    (∀ (rows : List GeneRow) (k : String),
      pyDictGet (set_gene_map (some rows)) k
        = ((rows.reverse.find? (fun r => r.col1 == k)).map GeneRow.col2)) ∧
    (∀ k : String, pyDictGet (set_gene_map none) k = none) ∧
    (∀ (gm : List (String × String)) (row : ProteinRow),
      pyDictGet gm row.transcript_gene = none →
      (_add_genotype_protein_variant_assoc_to_graph gm row).2
        = some row.transcript_gene) := by
  refine ⟨rfl, ?_, fun k => rfl, ?_⟩
  · intro rows k
    have hs : set_gene_map (some rows)
        = rows.foldl (fun m r => pyDictSet m r.col1 r.col2) [] := rfl
    rw [hs, pyDictSet_foldl]
    simp only [List.nil_append]
    exact pyDictGet_last rows k
  · intro gm row hg
    simp [_add_genotype_protein_variant_assoc_to_graph, hg]

/-- A row whose gene symbol is unmapped. -/
def c4row : ProteinRow :=
  ⟨3, "EGFR T790M", "p.T790M", none, "NM_005228", none, none, none, none,
   "EGFR", none⟩

/-- Claim C4 witness: with the reference file absent (empty mapping), the
lookup of the row's gene symbol fails hard with the missing key. -/
theorem claim_C4_witness :
    (_add_genotype_protein_variant_assoc_to_graph (set_gene_map none)
      c4row).2 = some "EGFR" :=
  claim_C4.2.2.2 (set_gene_map none) c4row rfl

/-- Claim C5: given a successful gene lookup, a Position Feature (and its
location edge) is emitted exactly when the row is classified missense AND
the variant string parses; its key is built from the genotype key and the
raw variant string, its start and end positions both equal the parsed
position, and both locations are anchored to the Transcript curie. -/
theorem claim_C5 : ∀ (gm : List (String × String)) (row : ProteinRow)
    (gene_id : String),
    pyDictGet gm row.transcript_gene = some gene_id →
    ((_add_genotype_protein_variant_assoc_to_graph gm row).1.filter
        isFeatureEm) =
      (match (if isMissense row.protein_variant_type row.genotype_label then
                parseAminoAcid row.amino_acid_variant else none) with
       | some (_a, position, _b) =>
         [Emission.addTriple
            (make_id ("cgd-genotype" ++ toString row.genotype_key))
            "location"
            (make_id ("cgd-aa-pos" ++ toString row.genotype_key
              ++ row.amino_acid_variant)),
          Emission.feature
            (make_id ("cgd-aa-pos" ++ toString row.genotype_key
              ++ row.amino_acid_variant))
            row.amino_acid_variant "Position" position
            (make_id ("cgd-transcript" ++ row.transcript_id)) position
            (make_id ("cgd-transcript" ++ row.transcript_id))]
       | none => []) := by
  intro gm row gene_id hg
  unfold _add_genotype_protein_variant_assoc_to_graph
  rw [hg]
  cases hM : isMissense row.protein_variant_type row.genotype_label with
  | false =>
    simp only [hM, Bool.false_eq_true, if_false, reduceIte]
    simp [isFeatureEm] <;> split <;> simp_all [isFeatureEm]
  | true =>
    cases hp : parseAminoAcid row.amino_acid_variant with
    | none =>
      simp only [hM, if_true, reduceIte, hp]
      simp [isFeatureEm] <;> split <;> simp_all [isFeatureEm]
    | some tr =>
      obtain ⟨a1, p1, b1⟩ := tr
      simp only [hM, if_true, reduceIte, hp]
      simp [isFeatureEm] <;> split <;> simp_all [isFeatureEm]

/-- A missense row with a parseable variant string and a mapped gene. -/
def c5row : ProteinRow :=
  ⟨5, "BRAF missense mutation", "p.V600E", none, "NM_004333.4", some "Primary",
   some "nonsynonymous - missense", none, none, "BRAF", none⟩

/-- Claim C5 witness: on a concrete missense row with variant "p.V600E" and
a mapped gene, the location edge and the single-residue Position Feature at
600, anchored to the Transcript on both ends, are emitted. -/
theorem claim_C5_witness :
    (_add_genotype_protein_variant_assoc_to_graph [("BRAF", "NCBIGene:673")]
      c5row).1.filter isFeatureEm =
      [Emission.addTriple ":cgd-genotype5" "location" ":cgd-aa-pos5p.V600E",
       Emission.feature ":cgd-aa-pos5p.V600E" "p.V600E" "Position" "600"
         ":cgd-transcriptNM_004333.4" "600" ":cgd-transcriptNM_004333.4"] :=
  claim_C5 [("BRAF", "NCBIGene:673")] c5row "NCBIGene:673" rfl

end CGD

namespace CGD

/-- Claim C6: the transcript emission of a shape-A/B row is exactly one
`addTranscript` built from the transcript id, with the primary-transcript
type when priority is "Primary" and the secondary structure-variant type
when it is "Secondary"; any other priority links nothing. -/
theorem claim_C6 : ∀ (gm : List (String × String)) (row : ProteinRow),
    (row.transcript_priority = some "Primary" →
      ((_add_genotype_protein_variant_assoc_to_graph gm row).1.filter
          isTranscriptEm)
        = [Emission.addTranscript
            (make_id ("cgd-genotype" ++ toString row.genotype_key))
            (make_id ("cgd-transcript" ++ row.transcript_id))
            row.transcript_id "primary_transcript"]) ∧
    (row.transcript_priority = some "Secondary" →
      ((_add_genotype_protein_variant_assoc_to_graph gm row).1.filter
          isTranscriptEm)
        = [Emission.addTranscript
            (make_id ("cgd-genotype" ++ toString row.genotype_key))
            (make_id ("cgd-transcript" ++ row.transcript_id))
            row.transcript_id "transcript_secondary_structure_variant"]) ∧
    (row.transcript_priority ≠ some "Primary" →
      row.transcript_priority ≠ some "Secondary" →
      ((_add_genotype_protein_variant_assoc_to_graph gm row).1.filter
          isTranscriptEm) = []) := by
  intro gm row
  unfold _add_genotype_protein_variant_assoc_to_graph
  refine ⟨fun h1 => ?_, fun h2 => ?_, fun h1 h2 => ?_⟩ <;>
    cases hg : pyDictGet gm row.transcript_gene <;>
      simp_all [isTranscriptEm, isMissense] <;> split <;>
        simp_all [isTranscriptEm] <;> split <;> simp_all [isTranscriptEm]

/-- A row with Primary transcript priority. -/
def c6rowP : ProteinRow :=
  ⟨1, "lbl", "v", none, "T1", some "Primary", none, none, none, "G1", none⟩

/-- A row with Secondary transcript priority. -/
def c6rowS : ProteinRow :=
  ⟨1, "lbl", "v", none, "T1", some "Secondary", none, none, none, "G1", none⟩

/-- A row with an unrecognised transcript priority. -/
def c6rowN : ProteinRow :=
  ⟨1, "lbl", "v", none, "T1", some "Tertiary", none, none, none, "G1", none⟩

/-- Claim C6 witness: the three priority cases on concrete rows. -/
theorem claim_C6_witness :
    ((_add_genotype_protein_variant_assoc_to_graph [] c6rowP).1.filter
        isTranscriptEm
      = [Emission.addTranscript ":cgd-genotype1" ":cgd-transcriptT1" "T1"
          "primary_transcript"]) ∧
    ((_add_genotype_protein_variant_assoc_to_graph [] c6rowS).1.filter
        isTranscriptEm
      = [Emission.addTranscript ":cgd-genotype1" ":cgd-transcriptT1" "T1"
          "transcript_secondary_structure_variant"]) ∧
    ((_add_genotype_protein_variant_assoc_to_graph [] c6rowN).1.filter
        isTranscriptEm = []) :=
  ⟨(claim_C6 [] c6rowP).1 rfl, (claim_C6 [] c6rowS).2.1 rfl,
   (claim_C6 [] c6rowN).2.2 (by decide) (by decide)⟩

end CGD

namespace CGD

/-- A shape-C row whose relationship text contains a tab character; used to
refute claim C7's token derivation as stated. -/
def c7row : DDGRow :=
  ⟨1, "g", 2, "d", none, none, "resistant\tto", 3, "drugX", none, none⟩

/-- Claim C7 counterexample: the claim says the relationship token is the
relationship text with WHITESPACE replaced by underscores; the code only
replaces space characters, so on the relationship text containing a tab the
emitted drug edge carries the tab and no edge with the claimed token
exists. -/
theorem claim_C7_counterexample :
    relationshipToken "resistant\tto" = "MONARCH:resistant\tto" ∧
    specRelationshipToken "resistant\tto" = "MONARCH:resistant_to" ∧
    Emission.addTriple ":cgd1g" "MONARCH:resistant\tto" ":cgd-drug3"
      ∈ ddgRowEmissions c7row ∧
    Emission.addTriple ":cgd1g" (specRelationshipToken "resistant\tto")
      ":cgd-drug3" ∉ ddgRowEmissions c7row := by
  refine ⟨rfl, rfl, ?_, ?_⟩ <;> decide

/-- Claim C7 amended: for every shape-C row, regardless of citation
presence, the Population is emitted as an individual of type population,
the Phenotype and Drug as classes, and exactly three bare edges in fixed
order - has_genotype, has_phenotype, then the relationship token - where
the token is the relationship text namespaced with each SPACE character
replaced by an underscore. -/
theorem claim_C7_amended : ∀ row : DDGRow,
    ((ddgRowEmissions row).filter isTripleEm =
      [Emission.addTriple
         (make_id ("cgd" ++ toString row.genotype_key ++ row.genotype_label))
         "has_genotype" (make_id ("cgd-genotype" ++ toString row.genotype_key)),
       Emission.addTriple
         (make_id ("cgd" ++ toString row.genotype_key ++ row.genotype_label))
         "has_phenotype" (make_id ("cgd-phenotype" ++ toString row.diagnoses_key)),
       Emission.addTriple
         (make_id ("cgd" ++ toString row.genotype_key ++ row.genotype_label))
         (relationshipToken row.relationship)
         (make_id ("cgd-drug" ++ toString row.drug_key))]) ∧
    Emission.addIndividual
      (make_id ("cgd" ++ toString row.genotype_key ++ row.genotype_label))
      ("Patient population diagnosed with " ++ row.diagnoses
        ++ " with genotype " ++ row.genotype_label) "population"
      ∈ ddgRowEmissions row ∧
    Emission.addClass (make_id ("cgd-phenotype" ++ toString row.diagnoses_key))
      row.diagnoses ∈ ddgRowEmissions row ∧
    Emission.addClass (make_id ("cgd-drug" ++ toString row.drug_key))
      row.drug ∈ ddgRowEmissions row := by
  intro row
  cases h : row.pubmed_id <;>
    refine ⟨?_, ?_, ?_, ?_⟩ <;> simp [ddgRowEmissions, h, isTripleEm]

/-- Claim C8: every genotype-mapper row is processed by the protein handler
on its first 11 fields, rows with more than 11 fields additionally pass
through the cDNA handler, and the cDNA handler emits nothing: per-row
output equals the protein handler's output exactly. -/
theorem claim_C8 : ∀ (gm : List (String × String)) (p : ProteinRow)
    (ext : CdnaExt) (row : GenoRow),
    _add_genotype_cdna_variant_assoc_to_graph p ext = [] ∧
    processGenoRow gm row
      = _add_genotype_protein_variant_assoc_to_graph gm row.protein :=
  fun gm p ext row => ⟨rfl, processGenoRow_eq gm row⟩

/-- Claim C9: identifier generation is deterministic, and submitting the
same shape-A row twice yields the same entity set as submitting it once -
with at most one distinct Genotype identifier, one distinct Transcript
identifier, and one distinct Position Feature identifier. -/
theorem claim_C9 : ∀ (k : String) (gm : List (String × String)) (p : ProteinRow),
    make_id k = make_id k ∧
    (add_genotype_info_to_graph gm [⟨p, none⟩, ⟨p, none⟩]).1.toFinset
      = (add_genotype_info_to_graph gm [⟨p, none⟩]).1.toFinset ∧
    ((add_genotype_info_to_graph gm [⟨p, none⟩, ⟨p, none⟩]).1.filterMap
      (fun e => match e with
        | Emission.addGenotype gid _ _ => some gid
        | _ => none)).toFinset.card ≤ 1 ∧
    ((add_genotype_info_to_graph gm [⟨p, none⟩, ⟨p, none⟩]).1.filterMap
      (fun e => match e with
        | Emission.addTranscript _ tc _ _ => some tc
        | _ => none)).toFinset.card ≤ 1 ∧
    ((add_genotype_info_to_graph gm [⟨p, none⟩, ⟨p, none⟩]).1.filterMap
      (fun e => match e with
        | Emission.feature fid _ _ _ _ _ _ => some fid
        | _ => none)).toFinset.card ≤ 1 := by
  intro k gm p
  have h1 : (processGenoRow gm ⟨p, none⟩).1
      = (_add_genotype_protein_variant_assoc_to_graph gm p).1 := by
    rw [processGenoRow_eq]
  refine ⟨rfl, ?_, ?_, ?_, ?_⟩
  · cases hr : (processGenoRow gm ⟨p, none⟩).2 <;>
      simp [add_genotype_info_to_graph, hr, List.toFinset_append]
  · cases hr : (processGenoRow gm ⟨p, none⟩).2 <;>
      simp [add_genotype_info_to_graph, hr, List.filterMap_append, h1,
        handler_gfm, Finset.card_le_one] <;> (try split) <;>
        simp_all [Finset.card_le_one]
  · cases hr : (processGenoRow gm ⟨p, none⟩).2 <;>
      simp [add_genotype_info_to_graph, hr, List.filterMap_append, h1,
        handler_tfm, Finset.card_le_one] <;> (repeat' split) <;>
        simp_all [Finset.card_le_one]
  · have h2 := handler_ffm_len gm p
    cases hf : ((_add_genotype_protein_variant_assoc_to_graph gm p).1).filterMap
        (fun e => match e with
          | Emission.feature fid _ _ _ _ _ _ => some fid
          | _ => none) with
    | nil =>
      cases hr : (processGenoRow gm ⟨p, none⟩).2 <;>
        simp [add_genotype_info_to_graph, hr, List.filterMap_append, h1, hf]
    | cons y t =>
      rw [hf] at h2
      simp at h2
      cases hr : (processGenoRow gm ⟨p, none⟩).2 <;>
        simp [add_genotype_info_to_graph, hr, List.filterMap_append, h1, hf, h2]

end CGD

namespace CGD

/-- Claim C10: row abort on a gene-symbol mapping failure is not atomic -
when the lookup fails, the handler returns the missing key together with
the emissions already made: the sequence-alteration Genotype first, plus
the Primary/Secondary transcript link and the missense tag when
applicable; the graph is left changed, not unchanged. -/
theorem claim_C10 : ∀ (gm : List (String × String)) (row : ProteinRow),
    pyDictGet gm row.transcript_gene = none →
    (_add_genotype_protein_variant_assoc_to_graph gm row).2
      = some row.transcript_gene ∧
    (_add_genotype_protein_variant_assoc_to_graph gm row).1.head? =
      some (Emission.addGenotype
        (make_id ("cgd-genotype" ++ toString row.genotype_key))
        row.genotype_label "sequence_alteration") ∧
    (row.transcript_priority = some "Primary" →
      Emission.addTranscript
        (make_id ("cgd-genotype" ++ toString row.genotype_key))
        (make_id ("cgd-transcript" ++ row.transcript_id)) row.transcript_id
        "primary_transcript"
        ∈ (_add_genotype_protein_variant_assoc_to_graph gm row).1) ∧
    (row.transcript_priority = some "Secondary" →
      Emission.addTranscript
        (make_id ("cgd-genotype" ++ toString row.genotype_key))
        (make_id ("cgd-transcript" ++ row.transcript_id)) row.transcript_id
        "transcript_secondary_structure_variant"
        ∈ (_add_genotype_protein_variant_assoc_to_graph gm row).1) ∧
    (isMissense row.protein_variant_type row.genotype_label = true →
      Emission.addGenotype
        (make_id ("cgd-genotype" ++ toString row.genotype_key))
        row.genotype_label "missense_variant"
        ∈ (_add_genotype_protein_variant_assoc_to_graph gm row).1) ∧
    (_add_genotype_protein_variant_assoc_to_graph gm row).1 ≠ [] := by
  intro gm row hg
  unfold _add_genotype_protein_variant_assoc_to_graph
  simp_all

/-- A missense Primary-priority row whose gene symbol is unmapped. -/
def c10row : ProteinRow :=
  ⟨11, "BRAF missense mutation", "p.V600E", none, "NM_004333", some "Primary",
   some "nonsynonymous - missense", none, none, "BRAF", none⟩

/-- Claim C10 witness: on a concrete unmapped-gene row, the failure carries
the missing key while the Genotype, the transcript link and the missense
tag have already been emitted. -/
theorem claim_C10_witness :
    (_add_genotype_protein_variant_assoc_to_graph [] c10row).2
      = some "BRAF" ∧
    Emission.addTranscript ":cgd-genotype11" ":cgd-transcriptNM_004333"
      "NM_004333" "primary_transcript"
      ∈ (_add_genotype_protein_variant_assoc_to_graph [] c10row).1 ∧
    Emission.addGenotype ":cgd-genotype11" "BRAF missense mutation"
      "missense_variant"
      ∈ (_add_genotype_protein_variant_assoc_to_graph [] c10row).1 ∧
    (_add_genotype_protein_variant_assoc_to_graph [] c10row).1 ≠ [] := by
  have h := claim_C10 [] c10row rfl
  exact ⟨h.1, h.2.2.1 rfl, h.2.2.2.2.1 rfl, h.2.2.2.2.2⟩

end CGD
